import Mathlib

/-!
Shallow embedding of `src/game.py` (swadges-plays-pokemon): the multi-player
button-vote arbitration core.  Players press and release buttons; the game
counts, per button, how many players currently hold it, picks the winning
button (with a most-recently-pressed tie-break), and forwards the decision
to the emulated game.  Outbound bus publishes (light feedback, kick
requests) are modelled as an outbox of messages; the xdo keystroke effects
of `push_button` are surfaced as booleans.
-/

set_option autoImplicit false
set_option maxRecDepth 4000

/-- Button name constants (`class Button`, game.py:23-33). -/
inductive Button where
  | up
  | down
  | left
  | right
  | select
  | start
  | a
  | b
deriving DecidableEq

/-- The fixed button order of the `totals` dict literal in
`calculate_buttons` (game.py:207): up, down, left, right, select, start,
a, b.  Python dicts iterate in insertion order, so this is also the scan
order of the max loop (game.py:213). -/
def buttonList : List Button :=
  [Button.up, Button.down, Button.left, Button.right,
   Button.select, Button.start, Button.a, Button.b]

namespace Color

/-- `Color.RED` (game.py:38). -/
def RED : Nat := 0x020000

/-- `Color.GREEN` (game.py:41). -/
def GREEN : Nat := 0x000200

/-- `Color.WHITE` (game.py:47). -/
def WHITE : Nat := 0x010101

/-- `Color.OFF` (game.py:49). -/
def OFF : Nat := 0x000000

end Color

/-- `GAME_ID` (game.py:64). -/
def GAME_ID : String := "magfest_plays"

/-- Per-player state (`class PlayerInfo`, game.py:71-95).  The float
`brightness` and `selected_light` fields are set in `__init__` and never
read anywhere in the program, so they are omitted. -/
structure PlayerInfo where
  badge_id : Nat
  current_button : Option Button
  start_press_at : Int
  light_settings : List Nat
  subscriptions : List Nat
deriving DecidableEq

namespace PlayerInfo

/-- `PlayerInfo.QUIT_TIME` (game.py:73): milliseconds the start button must
be held (strictly longer than this) to quit the game. -/
def QUIT_TIME : Int := 1500

/-- `PlayerInfo.__init__` (game.py:75-95): fresh player with no held
button, start press timestamp 0, all-white lights. -/
def init (badge_id : Nat) (subscriptions : List Nat) : PlayerInfo :=
  { badge_id := badge_id
    current_button := none
    start_press_at := 0
    light_settings := [Color.WHITE, Color.WHITE, Color.WHITE, Color.WHITE]
    subscriptions := subscriptions }

/-- `PlayerInfo.on_start_press` (game.py:97-98). -/
def on_start_press (p : PlayerInfo) (timestamp : Int) : PlayerInfo :=
  { p with start_press_at := timestamp }

/-- `PlayerInfo.start_held` (game.py:100-108): whether `timestamp` is more
than `QUIT_TIME` after the last start press. -/
def start_held (p : PlayerInfo) (timestamp : Int) : Bool :=
  QUIT_TIME < timestamp - p.start_press_at

end PlayerInfo

/-- Outbound WAMP publishes (`self.publish` calls): per-player light
updates (game.py:183) and kick requests (game.py:256). -/
inductive Msg where
  | lights (badge_id : Nat) (settings : List Nat)
  | kick (game_id : String) (badge_id : Nat)
deriving DecidableEq

/-- The `GameComponent` class attributes (game.py:112-116) plus the
modelled transport: `players` is the insertion-ordered dict of
`PlayerInfo`s keyed by badge id, `current_button` the decided action,
`last_button` the most recent press, the two checkpoint counters, a fresh
source of subscription handles, the set of live subscriptions at the
transport, and the outbox of published messages. -/
@[ext]
structure GameState where
  players : List (Nat × PlayerInfo)
  current_button : Option Button
  last_button : Option Button
  press_counter : Nat
  save_counter : Nat
  nextSub : Nat
  busSubs : List Nat
  outbox : List Msg
deriving DecidableEq

/-- Initial `GameComponent` state (game.py:112-116). -/
def initState : GameState :=
  { players := []
    current_button := none
    last_button := none
    press_counter := 0
    save_counter := 0
    nextSub := 0
    busSubs := []
    outbox := [] }

/-- `self.players.get(badge_id, None)` on the insertion-ordered dict. -/
def lookupBadge (badge_id : Nat) : List (Nat × PlayerInfo) → Option PlayerInfo
  | [] => none
  | (k, p) :: rest => if k = badge_id then some p else lookupBadge badge_id rest

/-- `self.players[badge_id] = v`: Python dict assignment replaces the value
in place for an existing key and appends for a new key. -/
def insertBadge (badge_id : Nat) (v : PlayerInfo) :
    List (Nat × PlayerInfo) → List (Nat × PlayerInfo)
  | [] => [(badge_id, v)]
  | (k, p) :: rest =>
    if k = badge_id then (k, v) :: rest else (k, p) :: insertBadge badge_id v rest

/-- In-place mutation of an existing entry (e.g.
`self.players[badge_id].current_button = None`). -/
def updateBadge (badge_id : Nat) (f : PlayerInfo → PlayerInfo) :
    List (Nat × PlayerInfo) → List (Nat × PlayerInfo)
  | [] => []
  | (k, p) :: rest =>
    if k = badge_id then (k, f p) :: rest else (k, p) :: updateBadge badge_id f rest

/-- `del self.players[badge_id]` (game.py:289). -/
def eraseBadge (badge_id : Nat) : List (Nat × PlayerInfo) → List (Nat × PlayerInfo)
  | [] => []
  | (k, p) :: rest =>
    if k = badge_id then rest else (k, p) :: eraseBadge badge_id rest

/-- The vote totals of `calculate_buttons` (game.py:207-210): for each
button, the number of registered players currently holding it. -/
def totals (ps : List (Nat × PlayerInfo)) (btn : Button) : Nat :=
  ps.countP (fun kp => kp.2.current_button = some btn)

/-- The max-scan loop of `calculate_buttons` (game.py:211-216): starting
from `max = 0`, `max_item = None`, walk the buttons in dict order and take
a new `(max, max_item)` whenever a strictly larger total appears. -/
def maxScan (t : Button → Nat) : List Button → Nat → Option Button → Nat × Option Button
  | [], m, it => (m, it)
  | x :: xs, m, it =>
    if t x > m then maxScan t xs (t x) (some x) else maxScan t xs m it

/-- The decision part of `calculate_buttons` (game.py:206-219): max-scan
the totals, then let `last_button` override `max_item` when its total ties
the maximum. -/
def calcDecided (ps : List (Nat × PlayerInfo)) (last : Option Button) : Option Button :=
  let t := totals ps
  let r := maxScan t buttonList 0 none
  match last with
  | some lb => if t lb = r.1 then some lb else r.2
  | none => r.2

/-- `push_button` counter logic (game.py:230-241): increment
`press_counter`; past 100, reset it, emit a save-state keystroke and bump
`save_counter`; past 100 there, emit the secondary keystroke and reset.
Returns the new counters and the two keystroke-effect flags
(saved, rotated). -/
def push_button (press_counter save_counter : Nat) : Nat × Nat × Bool × Bool :=
  let pc := press_counter + 1
  if pc > 100 then
    let sc := save_counter + 1
    if sc > 100 then (0, 0, true, true) else (0, sc, true, false)
  else (pc, save_counter, false, false)

/-- The feedback loop of `calculate_buttons` (game.py:223-228): each
player whose `current_button` equals the decided button gets green lights,
every other player red, and the new light settings of each player are
published. -/
def lightLoop (d : Option Button) :
    List (Nat × PlayerInfo) → List (Nat × PlayerInfo) × List Msg
  | [] => ([], [])
  | (k, p) :: rest =>
    let settings :=
      if p.current_button = d then
        [Color.GREEN, Color.GREEN, Color.GREEN, Color.GREEN]
      else
        [Color.RED, Color.RED, Color.RED, Color.RED]
    let r := lightLoop d rest
    ((k, { p with light_settings := settings }) :: r.1, Msg.lights k settings :: r.2)

/-- `GameComponent.calculate_buttons` (game.py:206-228).  Returns the new
state and whether `push_button` fired (the decision changed). -/
def calculate_buttons (s : GameState) : GameState × Bool :=
  let d := calcDecided s.players s.last_button
  let s1 :=
    if d ≠ s.current_button then
      let r := push_button s.press_counter s.save_counter
      { s with current_button := d, press_counter := r.1, save_counter := r.2.1 }
    else s
  let lr := lightLoop s1.current_button s1.players
  ({ s1 with players := lr.1, outbox := s1.outbox ++ lr.2 }, d ≠ s.current_button)

/-- `GameComponent.set_lights` (game.py:180-183): publish the light
settings of the player. -/
def set_lights (p : PlayerInfo) (s : GameState) : GameState :=
  { s with outbox := s.outbox ++ [Msg.lights p.badge_id p.light_settings] }

/-- `GameComponent.kick` (game.py:249-256): publish a `game.kick` request;
nothing local is touched. -/
def kick (badge_id : Nat) (s : GameState) : GameState :=
  { s with outbox := s.outbox ++ [Msg.kick GAME_ID badge_id] }

/-- `GameComponent.on_button_press` (game.py:186-204).  Unknown badge ids
are logged and dropped.  Returns the new state and whether `push_button`
fired inside `calculate_buttons`. -/
def on_button_press (button : Button) (timestamp : Int) (badge_id : Nat)
    (s : GameState) : GameState × Bool :=
  match lookupBadge badge_id s.players with
  | none => (s, false)
  | some _ =>
    let upd := fun (p : PlayerInfo) =>
      let p := { p with current_button := some button }
      if button = Button.start then p.on_start_press timestamp else p
    let s := { s with players := updateBadge badge_id upd s.players }
    let s := { s with last_button := some button }
    calculate_buttons s

/-- `GameComponent.on_button_release` (game.py:160-178).  Unknown badge ids
are logged and dropped.  A start release after a long hold publishes a
kick first; then the button held by the player and `last_button` are cleared and the
decision recomputed. -/
def on_button_release (button : Button) (timestamp : Int) (badge_id : Nat)
    (s : GameState) : GameState × Bool :=
  match lookupBadge badge_id s.players with
  | none => (s, false)
  | some player =>
    let s :=
      if button = Button.start then
        if player.start_held timestamp then kick badge_id s else s
      else s
    let upd := fun (p : PlayerInfo) => { p with current_button := none }
    let s := { s with players := updateBadge badge_id upd s.players }
    let s := { s with last_button := none }
    calculate_buttons s

/-- `GameComponent.on_player_join` (game.py:258-275): subscribe a fresh
press handler and a fresh release handler, install a brand-new
`PlayerInfo` under the badge id (silently replacing any existing entry),
and publish its initial lights.  There is no duplicate check. -/
def on_player_join (badge_id : Nat) (s : GameState) : GameState :=
  let press_sub := s.nextSub
  let release_sub := s.nextSub + 1
  let newPlayer := PlayerInfo.init badge_id [press_sub, release_sub]
  let s := { s with
    nextSub := s.nextSub + 2
    busSubs := s.busSubs ++ [press_sub, release_sub]
    players := insertBadge badge_id newPlayer s.players }
  set_lights newPlayer s

/-- `GameComponent.on_player_leave` (game.py:277-289): for a registered
badge, unsubscribe its handles, blank its lights (publishing them) and
delete it from the registry.  For an unknown badge,
`self.players[badge_id]` raises `KeyError` before any mutation, modelled
as `none`. -/
def on_player_leave (badge_id : Nat) (s : GameState) : Option GameState :=
  match lookupBadge badge_id s.players with
  | none => none
  | some player =>
    let keep := fun (h : Nat) => ! player.subscriptions.contains h
    let s := { s with busSubs := s.busSubs.filter keep }
    let blank := fun (p : PlayerInfo) =>
      { p with light_settings := [Color.OFF, Color.OFF, Color.OFF, Color.OFF] }
    let s := { s with players := updateBadge badge_id blank s.players }
    let s := set_lights (blank player) s
    some { s with players := eraseBadge badge_id s.players }

/-!
Specification-side definitions, used to state the claims against the
embedded code.
-/

/-- The largest vote total over a list of buttons (specification-side
notion of `max_count`). -/
def listMax (t : Button → Nat) : List Button → Nat
  | [] => 0
  | x :: xs => max (t x) (listMax t xs)

/-- The first button in the given order whose total equals `m`
(specification-side notion of "first action attaining the maximum"). -/
def firstWith (t : Button → Nat) (m : Nat) : List Button → Option Button
  | [] => none
  | x :: xs => if t x = m then some x else firstWith t m xs

/-- The maximal vote count over the fixed button set. -/
def maxTotal (ps : List (Nat × PlayerInfo)) : Nat :=
  listMax (totals ps) buttonList

/-- Modelled from the spec (amended tie-break rule): the decided action is
`last_input_action` whenever it is set and its count ties the maximal
count; otherwise, if the maximal count is positive, the first action in
the fixed button order attaining it; otherwise none. -/
def specDecided (ps : List (Nat × PlayerInfo)) (last : Option Button) : Option Button :=
  let t := totals ps
  let m := maxTotal ps
  match last with
  | some lb =>
    if t lb = m then some lb
    else if m = 0 then none else firstWith t m buttonList
  | none => if m = 0 then none else firstWith t m buttonList

/-- Modelled from the spec (the tie-break of claim C1 as written): the first
tied action in registry iteration order, i.e. the held action of the first
player, in registry order, whose held action has count equal to `m`. -/
def registryFirstTied (t : Button → Nat) (m : Nat) :
    List (Nat × PlayerInfo) → Option Button
  | [] => none
  | (_, p) :: rest =>
    match p.current_button with
    | some btn => if t btn = m then some btn else registryFirstTied t m rest
    | none => registryFirstTied t m rest

/-- Whether a published message is a kick request. -/
def isKick : Msg → Bool
  | Msg.kick _ _ => true
  | Msg.lights _ _ => false

/-- The state with the outbox forgotten, for frame statements about local
state versus published messages. -/
def stripOutbox (s : GameState) : GameState :=
  { s with outbox := [] }

/-- Totals of a run of `push_button` invocations: final counters plus how
many save and secondary (rotate) keystroke effects fired. -/
structure PushTotals where
  pcOut : Nat
  scOut : Nat
  saves : Nat
  rotates : Nat
deriving DecidableEq

/-- Run `push_button` `n` consecutive times (one per decision change),
accumulating the effect counts into `sv` and `rt`. -/
def iteratePushAux : Nat → Nat → Nat → Nat → Nat → PushTotals
  | 0, pc, sc, sv, rt => ⟨pc, sc, sv, rt⟩
  | n + 1, pc, sc, sv, rt =>
    let r := push_button pc sc
    iteratePushAux n r.1 r.2.1
      (sv + if r.2.2.1 then 1 else 0) (rt + if r.2.2.2 then 1 else 0)

/-- Run `push_button` `n` consecutive times (one per decision change),
starting from the given counters, and report the final counters together
with how many save and secondary effects fired. -/
def iteratePush (n pc sc : Nat) : PushTotals :=
  iteratePushAux n pc sc 0 0

/-!
Helper lemmas about the max-scan loop and `calcDecided`.
-/

theorem maxScan_of_le (t : Button → Nat) (l : List Button) :
    ∀ (m : Nat) (it : Option Button), listMax t l ≤ m → maxScan t l m it = (m, it) := by
  induction l with
  | nil => intro m it _; rfl
  | cons x xs ih =>
    intro m it h
    simp only [listMax, Nat.max_le] at h
    simp only [maxScan]
    rw [if_neg (by omega)]
    exact ih m it h.2

theorem maxScan_of_gt (t : Button → Nat) (l : List Button) :
    ∀ (m : Nat) (it : Option Button), m < listMax t l →
      maxScan t l m it = (listMax t l, firstWith t (listMax t l) l) := by
  induction l with
  | nil => intro m it h; simp [listMax] at h
  | cons x xs ih =>
    intro m it h
    simp only [listMax] at h ⊢
    simp only [maxScan, firstWith]
    by_cases hx : t x > m
    · rw [if_pos hx]
      rcases le_or_lt (listMax t xs) (t x) with hle | hlt
      · rw [maxScan_of_le t xs (t x) (some x) hle]
        rw [Nat.max_eq_left hle]
        simp [firstWith]
      · rw [ih (t x) (some x) hlt]
        rw [Nat.max_eq_right (le_of_lt hlt)]
        rw [if_neg (by omega)]
    · rw [if_neg hx]
      push_neg at hx
      have hxs : m < listMax t xs := by
        rcases lt_max_iff.mp h with h1 | h1
        · omega
        · exact h1
      rw [ih m it hxs]
      rw [Nat.max_eq_right (by omega)]
      rw [if_neg (by omega)]

theorem calcDecided_congr {ps1 ps2 : List (Nat × PlayerInfo)} (last : Option Button)
    (h : totals ps1 = totals ps2) : calcDecided ps1 last = calcDecided ps2 last := by
  unfold calcDecided
  rw [h]

/-- C1 (corrected).  The decision of the arbitration recomputation is
characterized by: `last_input_action` wins whenever it is set and its vote
count ties the maximal count; otherwise the first action in the fixed
button order attaining the maximal count wins when that count is
positive; otherwise no action wins.  In particular a strictly maximal
action always wins, and ties among actions break to the fixed button
order (up, down, left, right, select, start, a, b), not to registry
iteration order. -/
theorem calcDecided_eq_specDecided (ps : List (Nat × PlayerInfo)) (last : Option Button) :
    calcDecided ps last = specDecided ps last := by
  simp only [calcDecided, specDecided, maxTotal]
  rcases Nat.eq_zero_or_pos (listMax (totals ps) buttonList) with h0 | hpos
  · rw [maxScan_of_le (totals ps) buttonList 0 none (le_of_eq h0)]
    cases last with
    | none => simp [h0]
    | some lb => simp [h0]
  · rw [maxScan_of_gt (totals ps) buttonList 0 none hpos]
    have hne : listMax (totals ps) buttonList ≠ 0 := by omega
    cases last with
    | none => simp [hne]
    | some lb =>
      by_cases ht : totals ps lb = listMax (totals ps) buttonList
      · simp [ht]
      · simp [ht, hne]

/-!
Field lemmas about `calculate_buttons`.
-/

theorem totals_lightLoop (d : Option Button) (ps : List (Nat × PlayerInfo)) :
    totals (lightLoop d ps).1 = totals ps := by
  funext btn
  induction ps with
  | nil => rfl
  | cons kp rest ih =>
    obtain ⟨k, p⟩ := kp
    simp only [lightLoop, totals, List.countP_cons]
    simp only [totals] at ih
    rw [ih]

theorem calculate_buttons_current (s : GameState) :
    (calculate_buttons s).1.current_button = calcDecided s.players s.last_button := by
  by_cases h : calcDecided s.players s.last_button = s.current_button
  · simp [calculate_buttons, h]
  · simp [calculate_buttons, h]

theorem calculate_buttons_last (s : GameState) :
    (calculate_buttons s).1.last_button = s.last_button := by
  by_cases h : calcDecided s.players s.last_button = s.current_button
  · simp [calculate_buttons, h]
  · simp [calculate_buttons, h]

theorem calculate_buttons_totals (s : GameState) :
    totals (calculate_buttons s).1.players = totals s.players := by
  by_cases h : calcDecided s.players s.last_button = s.current_button <;>
    simp [calculate_buttons, h, totals_lightLoop]

theorem calculate_buttons_pushed (s : GameState) :
    (calculate_buttons s).2 = decide (calcDecided s.players s.last_button ≠ s.current_button) :=
  rfl

/-- C3 (confirmed).  Running the arbitration recomputation a second time
with no intervening mutation yields the same decided action and does not
invoke `push_button` again (no second "decision changed" signal). -/
theorem calculate_buttons_idempotent (s : GameState) :
    (calculate_buttons (calculate_buttons s).1).1.current_button
        = (calculate_buttons s).1.current_button ∧
    (calculate_buttons (calculate_buttons s).1).2 = false := by
  have hd : calcDecided (calculate_buttons s).1.players (calculate_buttons s).1.last_button
      = (calculate_buttons s).1.current_button := by
    rw [calculate_buttons_last, calcDecided_congr s.last_button (calculate_buttons_totals s),
        calculate_buttons_current]
  constructor
  · rw [calculate_buttons_current, hd]
  · rw [calculate_buttons_pushed, hd]
    simp

/-- C2 (corrected).  With zero players registered the arbitration
recomputation sets the decided action to `last_input_action`: `none` when
`last_input_action` is unset, but `last_input_action` itself when it is
set (its zero count ties the zero maximum, so the tie-break fires). -/
theorem calculate_buttons_empty_registry (s : GameState) (h : s.players = []) :
    (calculate_buttons s).1.current_button = s.last_button := by
  rw [calculate_buttons_current, h]
  cases hl : s.last_button <;> rfl

/-- Witness state for the empty-registry claims: no players, but a
remembered last press of `a`. -/
def sEmptyLast : GameState := { initState with last_button := some Button.a }

theorem calculate_buttons_empty_registry_witness :
    sEmptyLast.players = [] ∧
    (calculate_buttons sEmptyLast).1.current_button = sEmptyLast.last_button :=
  ⟨rfl, calculate_buttons_empty_registry sEmptyLast rfl⟩

/-- C2 counterexample: with an empty registry and `last_input_action = a`,
the recomputation decides `a`, not `none` as the claim states for every
value of `last_input_action`. -/
theorem calculate_buttons_empty_registry_keeps_last :
    (calculate_buttons sEmptyLast).1.current_button = some Button.a ∧
    some Button.a ≠ (none : Option Button) := by
  constructor
  · decide
  · decide

/-- A player holding the given button (used for concrete registry
states). -/
def mkHold (badge_id : Nat) (cb : Option Button) : PlayerInfo :=
  { PlayerInfo.init badge_id [] with current_button := cb }

/-- A two-player registry in which the first player (in registry
iteration order) holds `b` and the second holds `a` — a 1-1 tie. -/
def psTie : List (Nat × PlayerInfo) :=
  [(1, mkHold 1 (some Button.b)), (2, mkHold 2 (some Button.a))]

/-- C1 counterexample: in a 1-1 tie between `b` (held by the first player
in registry order) and `a` (held by the second), with no
`last_input_action`, the code decides `a` — the first tied action in the
fixed button order — whereas the tie-break of the claim names the first tied
action in registry iteration order, `b`; and no action is strictly
maximal there. -/
theorem calcDecided_tie_breaks_by_button_order :
    calcDecided psTie none = some Button.a ∧
    registryFirstTied (totals psTie) (maxTotal psTie) psTie = some Button.b ∧
    some Button.a ≠ some Button.b ∧
    ¬ (∃ x ∈ buttonList, calcDecided psTie none = some x ∧
        ∀ y ∈ buttonList, y ≠ x → totals psTie y < totals psTie x) := by
  refine ⟨by decide, by decide, by decide, by decide⟩

/-!
C8: the checkpoint counters.
-/

/-- C8 (corrected).  Starting from both counters at zero, 100 consecutive
decision changes trigger no checkpoint save at all (the counter merely
reaches 100); the save fires on the 101st consecutive change, which also
resets the counter to zero and bumps the secondary counter to one.  The
secondary (restore-point) effect likewise fires only on the checkpoint
that carries its counter past 100 — its 101st — after which it is reset
to zero. -/
theorem checkpoint_counters_fire_at_101 :
    iteratePush 100 0 0 = ⟨100, 0, 0, 0⟩ ∧
    iteratePush 101 0 0 = ⟨0, 1, 1, 0⟩ ∧
    iteratePush 101 0 100 = ⟨0, 0, 1, 1⟩ ∧
    push_button 100 100 = (0, 0, true, true) := by
  refine ⟨by decide, by decide, by decide, by decide⟩

/-- C8 counterexample: 100 consecutive decision changes starting from a
zero counter trigger zero checkpoint-save effects (not exactly one), and
leave the counter at 100 (not reset to zero). -/
theorem hundred_changes_trigger_no_save :
    (iteratePush 100 0 0).saves = 0 ∧ (iteratePush 100 0 0).pcOut = 100 ∧
    ¬ ((iteratePush 100 0 0).saves = 1 ∧ (iteratePush 100 0 0).pcOut = 0) := by
  refine ⟨by decide, by decide, by decide⟩

/-!
C5: events for unknown identities.
-/

/-- C5 (corrected).  A press or release event for an identity not in the
registry is logged and dropped: the handler returns with the entire state
(registry, decided action, last input action, counters, outbox)
unchanged and fires nothing.  A leave event for an unknown identity,
however, is not dropped: `self.players[badge_id]` raises an uncaught
`KeyError` (modelled as `none`) — though it, too, mutates nothing, the
failure happening before any mutation. -/
theorem unknown_identity_events (s : GameState) (badge_id : Nat) (btn : Button)
    (ts : Int) (h : lookupBadge badge_id s.players = none) :
    on_button_press btn ts badge_id s = (s, false) ∧
    on_button_release btn ts badge_id s = (s, false) ∧
    on_player_leave badge_id s = none := by
  refine ⟨?_, ?_, ?_⟩
  · simp [on_button_press, h]
  · simp [on_button_release, h]
  · simp [on_player_leave, h]

theorem unknown_identity_events_witness :
    lookupBadge 7 initState.players = none ∧
    on_button_press Button.a 0 7 initState = (initState, false) ∧
    on_button_release Button.a 0 7 initState = (initState, false) ∧
    on_player_leave 7 initState = none := by
  have h := unknown_identity_events initState 7 Button.a 0 rfl
  exact ⟨rfl, h.1, h.2.1, h.2.2⟩

/-- C5 counterexample: a leave event for an identity that was never
registered is not "dropped without raising an error" — it raises
`KeyError` (modelled as `none`), so no successor state exists. -/
theorem unknown_leave_raises :
    on_player_leave 7 initState = none ∧
    ¬ ∃ s2 : GameState, on_player_leave 7 initState = some s2 := by
  refine ⟨by decide, ?_⟩
  rintro ⟨s2, hs2⟩
  simp [show on_player_leave 7 initState = none from by decide] at hs2

/-!
C6: joining an already-registered identity.
-/

theorem lookupBadge_insertBadge_self (badge_id : Nat) (v : PlayerInfo)
    (ps : List (Nat × PlayerInfo)) :
    lookupBadge badge_id (insertBadge badge_id v ps) = some v := by
  induction ps with
  | nil => simp [insertBadge, lookupBadge]
  | cons kp rest ih =>
    obtain ⟨k, p⟩ := kp
    by_cases hk : k = badge_id
    · simp [insertBadge, lookupBadge, hk]
    · simp [insertBadge, lookupBadge, hk, ih]

theorem length_insertBadge_of_mem (badge_id : Nat) (v p : PlayerInfo)
    (ps : List (Nat × PlayerInfo)) (h : lookupBadge badge_id ps = some p) :
    (insertBadge badge_id v ps).length = ps.length := by
  induction ps with
  | nil => simp [lookupBadge] at h
  | cons kp rest ih =>
    obtain ⟨k, q⟩ := kp
    by_cases hk : k = badge_id
    · simp [insertBadge, hk]
    · simp only [lookupBadge, if_neg hk] at h
      simp [insertBadge, hk, ih h]

/-- C6 (corrected).  A join for an identity that is already registered is
not rejected: the existing entry is silently replaced by a brand-new
`PlayerInfo` (discarding the held button and quit timer), and a second
pair of press/release subscriptions is created at the transport without
unsubscribing the first, duplicating the feedback subscriptions.  Only
the registry-entry count is preserved (no second entry appears). -/
theorem rejoin_overwrites_and_duplicates (s : GameState) (badge_id : Nat)
    (p : PlayerInfo) (h : lookupBadge badge_id s.players = some p) :
    lookupBadge badge_id (on_player_join badge_id s).players
        = some (PlayerInfo.init badge_id [s.nextSub, s.nextSub + 1]) ∧
    (on_player_join badge_id s).busSubs = s.busSubs ++ [s.nextSub, s.nextSub + 1] ∧
    (on_player_join badge_id s).players.length = s.players.length := by
  refine ⟨?_, ?_, ?_⟩
  · simp [on_player_join, set_lights, lookupBadge_insertBadge_self]
  · simp [on_player_join, set_lights]
  · simp [on_player_join, set_lights, length_insertBadge_of_mem badge_id _ p s.players h]

/-- Witness registry for re-join: one registered player holding `a`. -/
def sRejoin : GameState :=
  { initState with players := [(1, mkHold 1 (some Button.a))], nextSub := 2,
                   busSubs := [0, 1] }

theorem rejoin_overwrites_and_duplicates_witness :
    lookupBadge 1 sRejoin.players = some (mkHold 1 (some Button.a)) ∧
    lookupBadge 1 (on_player_join 1 sRejoin).players = some (PlayerInfo.init 1 [2, 3]) ∧
    (on_player_join 1 sRejoin).busSubs = [0, 1] ++ [2, 3] ∧
    (on_player_join 1 sRejoin).players.length = sRejoin.players.length := by
  have h := rejoin_overwrites_and_duplicates sRejoin 1 (mkHold 1 (some Button.a)) rfl
  exact ⟨rfl, h.1, h.2.1, h.2.2⟩

/-- C6 counterexample: joining identity 1 a second time (while it holds
`a`) leaves the transport with four live subscriptions where the claim
demands the original two, and resets the held button of the player to `none`,
discarding its state — the join is not rejected. -/
theorem rejoin_not_rejected :
    (lookupBadge 1 sRejoin.players).map PlayerInfo.current_button
        = some (some Button.a) ∧
    (lookupBadge 1 (on_player_join 1 sRejoin).players).map PlayerInfo.current_button
        = some none ∧
    sRejoin.busSubs.length = 2 ∧
    (on_player_join 1 sRejoin).busSubs.length = 4 := by
  refine ⟨by decide, by decide, by decide, by decide⟩

/-!
C7: leaving does not rerun the arbitration.
-/

theorem keys_updateBadge (badge_id : Nat) (f : PlayerInfo → PlayerInfo)
    (ps : List (Nat × PlayerInfo)) :
    (updateBadge badge_id f ps).map Prod.fst = ps.map Prod.fst := by
  induction ps with
  | nil => rfl
  | cons kp rest ih =>
    obtain ⟨k, p⟩ := kp
    by_cases hk : k = badge_id
    · simp [updateBadge, hk]
    · simp [updateBadge, hk, ih]

theorem lookupBadge_eq_none_of_not_mem (badge_id : Nat) (ps : List (Nat × PlayerInfo))
    (h : badge_id ∉ ps.map Prod.fst) : lookupBadge badge_id ps = none := by
  induction ps with
  | nil => rfl
  | cons kp rest ih =>
    obtain ⟨k, p⟩ := kp
    simp only [List.map_cons, List.mem_cons] at h
    push_neg at h
    have hk : ¬ k = badge_id := fun hk => h.1 hk.symm
    simp [lookupBadge, hk, ih h.2]

theorem lookupBadge_eraseBadge_self (badge_id : Nat) (ps : List (Nat × PlayerInfo))
    (h : (ps.map Prod.fst).Nodup) :
    lookupBadge badge_id (eraseBadge badge_id ps) = none := by
  induction ps with
  | nil => rfl
  | cons kp rest ih =>
    obtain ⟨k, p⟩ := kp
    simp only [List.map_cons, List.nodup_cons] at h
    by_cases hk : k = badge_id
    · subst hk
      simp only [eraseBadge, if_pos rfl]
      exact lookupBadge_eq_none_of_not_mem k rest h.1
    · simp [eraseBadge, hk, lookupBadge, ih h.2]

/-- C7 (corrected).  Processing a leave for a registered player removes
it from the registry (and releases its subscriptions and blanks its
lights) but does NOT rerun the arbitration recomputation: the decided
action, last input action and both checkpoint counters are left exactly
as they were, stale, until the next press or release event. -/
theorem leave_skips_recompute (s : GameState) (badge_id : Nat) (p : PlayerInfo)
    (h : lookupBadge badge_id s.players = some p)
    (hnd : (s.players.map Prod.fst).Nodup) :
    ∃ s2, on_player_leave badge_id s = some s2 ∧
      s2.current_button = s.current_button ∧
      s2.last_button = s.last_button ∧
      s2.press_counter = s.press_counter ∧
      s2.save_counter = s.save_counter ∧
      lookupBadge badge_id s2.players = none := by
  have hl : on_player_leave badge_id s = some
      { players := eraseBadge badge_id (updateBadge badge_id
          (fun q => { q with
            light_settings := [Color.OFF, Color.OFF, Color.OFF, Color.OFF] }) s.players)
        current_button := s.current_button
        last_button := s.last_button
        press_counter := s.press_counter
        save_counter := s.save_counter
        nextSub := s.nextSub
        busSubs := s.busSubs.filter (fun h2 => ! p.subscriptions.contains h2)
        outbox := s.outbox ++
          [Msg.lights p.badge_id [Color.OFF, Color.OFF, Color.OFF, Color.OFF]] } := by
    simp [on_player_leave, h, set_lights]
  refine ⟨_, hl, rfl, rfl, rfl, rfl, ?_⟩
  apply lookupBadge_eraseBadge_self
  rw [keys_updateBadge]
  exact hnd

/-- Witness state with a single registered player holding `a`. -/
def sOnePlayer : GameState :=
  { initState with players := [(1, mkHold 1 (some Button.a))] }

theorem leave_skips_recompute_witness :
    ∃ s2, on_player_leave 1 sOnePlayer = some s2 ∧
      s2.current_button = sOnePlayer.current_button ∧
      s2.last_button = sOnePlayer.last_button ∧
      s2.press_counter = sOnePlayer.press_counter ∧
      s2.save_counter = sOnePlayer.save_counter ∧
      lookupBadge 1 s2.players = none :=
  leave_skips_recompute sOnePlayer 1 (mkHold 1 (some Button.a)) rfl (by decide)

/-- Demo: players 1 and 2 join; 2 presses `b`, then 1 presses `a` (the
1-1 tie breaks to the most recent press, so the decision is `a`). -/
def demoJoin : GameState := on_player_join 2 (on_player_join 1 initState)

/-- Demo state after 2 pressed `b` and then 1 pressed `a`. -/
def demoPressA : GameState :=
  (on_button_press Button.a 0 1 (on_button_press Button.b 0 2 demoJoin).1).1

/-- C7 counterexample: player 1 leaves while holding `a` (the decided
action).  The decision stays `a` — but rerunning the recomputation on the
post-leave state yields `b`, so the leave did not recompute the decision
"as if the held action of that player had been released". -/
theorem leave_midhold_stale_decision :
    demoPressA.current_button = some Button.a ∧
    (on_player_leave 1 demoPressA).map GameState.current_button = some (some Button.a) ∧
    (on_player_leave 1 demoPressA).map (fun s2 => (calculate_buttons s2).1.current_button)
        = some (some Button.b) ∧
    some Button.a ≠ some Button.b := by
  refine ⟨by decide, by decide, by decide, by decide⟩

/-!
C9: what `last_button` actually tracks.
-/

/-- C9 (corrected).  After a press by any registered player,
`last_input_action` is the pressed action — but after a release by ANY
registered player it is unconditionally cleared to `none`, forgetting
even a more recent press by a different player.  So `last_input_action`
equals the most recently pressed action only until the next processed
release. -/
theorem last_button_press_and_release (s : GameState) (badge_id : Nat) (p : PlayerInfo)
    (btn : Button) (ts : Int) (h : lookupBadge badge_id s.players = some p) :
    (on_button_press btn ts badge_id s).1.last_button = some btn ∧
    (on_button_release btn ts badge_id s).1.last_button = none := by
  constructor
  · simp [on_button_press, h, calculate_buttons_last]
  · simp [on_button_release, h, calculate_buttons_last]

theorem last_button_press_and_release_witness :
    (on_button_press Button.b 0 1 sOnePlayer).1.last_button = some Button.b ∧
    (on_button_release Button.b 0 1 sOnePlayer).1.last_button = none :=
  last_button_press_and_release sOnePlayer 1 (mkHold 1 (some Button.a)) Button.b 0 rfl

/-- Demo: 1 presses `a`, then 2 presses `b` (so the most recent press is
`b`), then 1 releases. -/
def demoRelease1 : GameState :=
  (on_button_release Button.a 5 1
    (on_button_press Button.b 0 2 (on_button_press Button.a 0 1 demoJoin).1).1).1

/-- C9 counterexample: the most recent press across all players is `b`
(player 2 still holds it), yet processing the release by player 1 clears
`last_input_action` to `none` — the release made it forget the more
recent press by player 2. -/
theorem release_clears_last_despite_newer_press :
    (on_button_press Button.b 0 2 (on_button_press Button.a 0 1 demoJoin).1).1.last_button
        = some Button.b ∧
    (lookupBadge 2 demoRelease1.players).map PlayerInfo.current_button
        = some (some Button.b) ∧
    demoRelease1.last_button = none ∧
    (none : Option Button) ≠ some Button.b := by
  refine ⟨by decide, by decide, by decide, by decide⟩

/-!
C4 and C10: the quit-hold kick.
-/

theorem lightLoop_snd_no_kick (d : Option Button) (ps : List (Nat × PlayerInfo)) :
    ((lightLoop d ps).2).countP isKick = 0 := by
  induction ps with
  | nil => rfl
  | cons kp rest ih =>
    obtain ⟨k, p⟩ := kp
    simp [lightLoop, List.countP_cons, isKick, ih]

theorem calculate_buttons_players (s : GameState) :
    (calculate_buttons s).1.players
      = (lightLoop (calcDecided s.players s.last_button) s.players).1 := by
  by_cases h : calcDecided s.players s.last_button = s.current_button <;>
    simp [calculate_buttons, h]

theorem calculate_buttons_outbox (s : GameState) :
    (calculate_buttons s).1.outbox
      = s.outbox ++ (lightLoop (calcDecided s.players s.last_button) s.players).2 := by
  by_cases h : calcDecided s.players s.last_button = s.current_button <;>
    simp [calculate_buttons, h]

theorem calculate_buttons_press_counter (s : GameState) :
    (calculate_buttons s).1.press_counter =
      if calcDecided s.players s.last_button = s.current_button then s.press_counter
      else (push_button s.press_counter s.save_counter).1 := by
  by_cases h : calcDecided s.players s.last_button = s.current_button <;>
    simp [calculate_buttons, h]

theorem calculate_buttons_save_counter (s : GameState) :
    (calculate_buttons s).1.save_counter =
      if calcDecided s.players s.last_button = s.current_button then s.save_counter
      else (push_button s.press_counter s.save_counter).2.1 := by
  by_cases h : calcDecided s.players s.last_button = s.current_button <;>
    simp [calculate_buttons, h]

theorem calculate_buttons_nextSub (s : GameState) :
    (calculate_buttons s).1.nextSub = s.nextSub := by
  by_cases h : calcDecided s.players s.last_button = s.current_button <;>
    simp [calculate_buttons, h]

theorem calculate_buttons_busSubs (s : GameState) :
    (calculate_buttons s).1.busSubs = s.busSubs := by
  by_cases h : calcDecided s.players s.last_button = s.current_button <;>
    simp [calculate_buttons, h]

theorem lookupBadge_updateBadge_self (badge_id : Nat) (f : PlayerInfo → PlayerInfo)
    (ps : List (Nat × PlayerInfo)) :
    lookupBadge badge_id (updateBadge badge_id f ps)
      = (lookupBadge badge_id ps).map f := by
  induction ps with
  | nil => rfl
  | cons kp rest ih =>
    obtain ⟨k, p⟩ := kp
    by_cases hk : k = badge_id
    · simp [updateBadge, lookupBadge, hk]
    · simp [updateBadge, lookupBadge, hk, ih]

theorem lookupBadge_isSome_lightLoop (badge_id : Nat) (d : Option Button)
    (ps : List (Nat × PlayerInfo)) :
    (lookupBadge badge_id (lightLoop d ps).1).isSome
      = (lookupBadge badge_id ps).isSome := by
  induction ps with
  | nil => rfl
  | cons kp rest ih =>
    obtain ⟨k, p⟩ := kp
    by_cases hk : k = badge_id
    · simp [lightLoop, lookupBadge, hk]
    · simp [lightLoop, lookupBadge, hk, ih]

theorem calculate_buttons_lookup_isSome (badge_id : Nat) (s : GameState) :
    (lookupBadge badge_id (calculate_buttons s).1.players).isSome
      = (lookupBadge badge_id s.players).isSome := by
  rw [calculate_buttons_players, lookupBadge_isSome_lightLoop]

theorem calculate_buttons_stripOutbox_congr (s t : GameState)
    (h : stripOutbox s = stripOutbox t) :
    stripOutbox (calculate_buttons s).1 = stripOutbox (calculate_buttons t).1 := by
  have hp := congrArg GameState.players h
  have hc := congrArg GameState.current_button h
  have hl := congrArg GameState.last_button h
  have hpc := congrArg GameState.press_counter h
  have hsc := congrArg GameState.save_counter h
  have hns := congrArg GameState.nextSub h
  have hbs := congrArg GameState.busSubs h
  simp only [stripOutbox] at hp hc hl hpc hsc hns hbs
  ext : 1
  · rw [stripOutbox, stripOutbox]
    simp only [calculate_buttons_players, hp, hl]
  · rw [stripOutbox, stripOutbox]
    simp only [calculate_buttons_current, hp, hl]
  · rw [stripOutbox, stripOutbox]
    simp only [calculate_buttons_last, hl]
  · rw [stripOutbox, stripOutbox]
    simp only [calculate_buttons_press_counter, hp, hl, hc, hpc, hsc]
  · rw [stripOutbox, stripOutbox]
    simp only [calculate_buttons_save_counter, hp, hl, hc, hpc, hsc]
  · rw [stripOutbox, stripOutbox]
    simp only [calculate_buttons_nextSub, hns]
  · rw [stripOutbox, stripOutbox]
    simp only [calculate_buttons_busSubs, hbs]
  · rw [stripOutbox, stripOutbox]

/-- C4 (confirmed).  When a registered player releases the start (quit)
action, exactly one kick request is published if and only if the release
timestamp exceeds the recorded start-press timestamp by strictly more
than the quit threshold (1500 ms); otherwise no kick is published.
Holding for exactly the threshold therefore does not trigger removal,
holding for threshold plus one millisecond does. -/
theorem release_start_kick_iff_held (s : GameState) (badge_id : Nat) (p : PlayerInfo)
    (ts : Int) (h : lookupBadge badge_id s.players = some p) :
    (on_button_release Button.start ts badge_id s).1.outbox.countP isKick =
      s.outbox.countP isKick +
        (if PlayerInfo.QUIT_TIME < ts - p.start_press_at then 1 else 0) := by
  by_cases hk : PlayerInfo.QUIT_TIME < ts - p.start_press_at
  · have hsh : p.start_held ts = true := by
      simp [PlayerInfo.start_held, hk]
    rw [if_pos hk]
    simp only [on_button_release, h]
    simp only [hsh]
    simp [calculate_buttons_outbox, kick, List.countP_append, lightLoop_snd_no_kick, isKick]
  · have hsh : p.start_held ts = false := by
      simp [PlayerInfo.start_held, hk]
    rw [if_neg hk]
    simp only [on_button_release, h]
    simp only [hsh]
    simp [calculate_buttons_outbox, List.countP_append, lightLoop_snd_no_kick]

theorem release_start_kick_iff_held_witness :
    (on_button_release Button.start 1500 1 sOnePlayer).1.outbox.countP isKick = 0 ∧
    (on_button_release Button.start 1501 1 sOnePlayer).1.outbox.countP isKick = 1 := by
  have h0 := release_start_kick_iff_held sOnePlayer 1 (mkHold 1 (some Button.a)) 1500 rfl
  have h1 := release_start_kick_iff_held sOnePlayer 1 (mkHold 1 (some Button.a)) 1501 rfl
  constructor
  · rw [h0]
    decide
  · rw [h1]
    decide

/-- C10 (confirmed).  The quit-hold kick only publishes an outbound
removal request: after a start release that triggers it, the kicked
player is still present in the registry, the kick request is the first
message published by the handler, and the resulting local state — outbox
aside — is identical to what the very same release would have produced
without the long hold (for any release timestamp), i.e. normal release
processing continues and the kick itself mutates nothing locally. -/
theorem kick_publishes_without_local_mutation (s : GameState) (badge_id : Nat)
    (p : PlayerInfo) (ts : Int) (h : lookupBadge badge_id s.players = some p)
    (hheld : PlayerInfo.QUIT_TIME < ts - p.start_press_at) :
    (lookupBadge badge_id (on_button_release Button.start ts badge_id s).1.players).isSome
        = true ∧
    (∃ tail, (on_button_release Button.start ts badge_id s).1.outbox
        = s.outbox ++ Msg.kick GAME_ID badge_id :: tail) ∧
    ∀ ts2 : Int, stripOutbox (on_button_release Button.start ts2 badge_id s).1
        = stripOutbox (on_button_release Button.start ts badge_id s).1 := by
  have hsh : p.start_held ts = true := by
    simp [PlayerInfo.start_held, hheld]
  refine ⟨?_, ?_, ?_⟩
  · simp only [on_button_release, h, hsh]
    simp [calculate_buttons_lookup_isSome, lookupBadge_updateBadge_self, kick, h]
  · simp only [on_button_release, h, hsh]
    refine ⟨(lightLoop (calcDecided (updateBadge badge_id
        (fun q => { q with current_button := none }) s.players) none)
        (updateBadge badge_id (fun q => { q with current_button := none }) s.players)).2, ?_⟩
    simp [calculate_buttons_outbox, kick]
  · intro ts2
    cases hsh2 : p.start_held ts2
    · simp only [on_button_release, h, hsh, hsh2]
      exact calculate_buttons_stripOutbox_congr _ _ rfl
    · simp only [on_button_release, h, hsh, hsh2]

theorem kick_publishes_without_local_mutation_witness :
    (lookupBadge 1 (on_button_release Button.start 1501 1 sOnePlayer).1.players).isSome
        = true ∧
    (∃ tail, (on_button_release Button.start 1501 1 sOnePlayer).1.outbox
        = sOnePlayer.outbox ++ Msg.kick GAME_ID 1 :: tail) ∧
    ∀ ts2 : Int, stripOutbox (on_button_release Button.start ts2 1 sOnePlayer).1
        = stripOutbox (on_button_release Button.start 1501 1 sOnePlayer).1 :=
  kick_publishes_without_local_mutation sOnePlayer 1 (mkHold 1 (some Button.a)) 1501 rfl
    (by decide)
